import Mathlib

/-!
Shallow embedding of the two source files of the repository
`Kshitij-Halmare/Final-Year-IT-Project`:

* `src/Backend/server.js` — an Express gateway that validates classifier /
  model identifiers against a static whitelist and relays prediction
  requests to an upstream Python inference service;
* `src/Frontend/src/Pages/Prediction.jsx` — a React page whose handlers
  validate the patient form, call the gateway, and (in complete-analysis
  mode) fan out over every classifier × model pair.

Conventions of the embedding:

* JavaScript numbers are modelled exactly (`Rat` for gateway payloads,
  exact decimal fractions for `parseFloat` results); no claim inspects
  floating-point rounding, the numeric values only flow through the
  system opaquely.
* A request body (`PatientRecord`) is a finite association list
  `List (String × Rat)`; `Object.keys(x).length === 0` becomes a length
  test on the list.
* The outcome of one `axios` / `fetch` call is a value of an explicit
  outcome type (`UpstreamOutcome`, `PairResult`): success payload,
  HTTP error with an optional JSON `error` field, connection refused,
  or any other failure.  A handler is a pure function of the request and
  that outcome, additionally returning the list of upstream calls it
  issued, so "no upstream call is made" is the statement that this list
  is empty.
* JavaScript string truthiness (`if (model)` / `x || fallback`) is made
  explicit via `strTruthy` / `jsOr`.
-/

namespace HealthGateway

/-- Nonempty-string truthiness, as JavaScript evaluates `if (s)` for a
string `s`. -/
def strTruthy (s : String) : Bool := s ≠ ""

/-- Truthiness of an optional string: `undefined` and `""` are falsy. -/
def optStrTruthy : Option String → Bool
  | none => false
  | some s => strTruthy s

/-- Embedding of the JavaScript idiom `x || fallback` for an optional
string field `x` (absent and empty strings both select the fallback). -/
def jsOr (x : Option String) (fallback : String) : String :=
  match x with
  | none => fallback
  | some s => if strTruthy s then s else fallback

/-- Embedding of `Array.prototype.join(', ')` used by the gateway to
enumerate valid identifiers in error messages. -/
def joinComma : List String → String
  | [] => ""
  | [x] => x
  | x :: y :: t => x ++ ", " ++ joinComma (y :: t)

/-- The static whitelist `AVAILABLE_CLASSIFIERS` of `server.js`
(lines 22–26): each classifier maps to its list of valid models. -/
def AVAILABLE_CLASSIFIERS : List (String × List String) :=
  [("BP_Class", ["GradientBoosting", "LogisticRegression", "RandomForest"]),
   ("Diabetes_Class", ["GradientBoosting", "LogisticRegression", "RandomForest"]),
   ("Dyslipidemia_Class", ["GradientBoosting", "LogisticRegression", "RandomForest"])]

/-- `Object.keys(AVAILABLE_CLASSIFIERS)`. -/
def classifierKeys : List String := AVAILABLE_CLASSIFIERS.map Prod.fst

/-- The standard member names of `Object.prototype`, which a JavaScript
bracket lookup on an object literal consults after the own properties:
for these keys `AVAILABLE_CLASSIFIERS[classifier]` yields an inherited
function or object, which is truthy. -/
def objectProtoKeys : List String :=
  ["constructor", "hasOwnProperty", "isPrototypeOf", "propertyIsEnumerable",
   "toLocaleString", "toString", "valueOf", "__proto__",
   "__defineGetter__", "__defineSetter__", "__lookupGetter__", "__lookupSetter__"]

/-- A (truthy) value a bracket lookup on the whitelist object can
produce: an own property — the array of model names — or a member
inherited from `Object.prototype` (a function or object, on which
`.includes(...)` is not callable). -/
inductive JsProp where
  | arr (models : List String)
  | protoFn
deriving DecidableEq, Repr

/-- Property lookup `AVAILABLE_CLASSIFIERS[classifier]` on the whitelist
object, including the prototype chain: `some (.arr models)` when the key
is an own property, `some .protoFn` (truthy) when the key names an
inherited `Object.prototype` member, and `none` (undefined, falsy)
otherwise. -/
def classifierLookup (c : String) : Option JsProp :=
  match AVAILABLE_CLASSIFIERS.find? (fun p => p.1 == c) with
  | some p => some (.arr p.2)
  | none => if objectProtoKeys.contains c then some .protoFn else none

/-- A `PatientRecord`: the JSON request body, a finite map from field
names to numbers. -/
abbrev PatientRecord := List (String × Rat)

/-- Record of one HTTP call the gateway issues to the upstream Python
service: method, path under the base URL, optional `model` query
parameter, and the forwarded body. -/
structure UpstreamCall where
  method : String
  path : String
  modelQuery : Option String
  body : PatientRecord
deriving DecidableEq, Repr

/-- Outcome of one upstream `axios` call, as observed in the handler's
`catch`: success with payload `α`; a non-2xx response (`error.response`)
carrying a status and the optional `error` field of its JSON body;
connection refused (`error.code === 'ECONNREFUSED'`); or any other
failure (timeout, DNS, ...). -/
inductive UpstreamOutcome (α : Type) where
  | ok (data : α)
  | httpError (status : Nat) (errField : Option String)
  | connRefused
  | otherFailure
deriving DecidableEq, Repr

/-- The JSON payload the gateway expects from the upstream service on a
successful single prediction (`response.data` in `server.js` line 88). -/
structure UpstreamPrediction where
  prediction : Int
  probabilities : List (List Rat)
  class_labels : List String
  model : String
deriving DecidableEq, Repr

/-- Response of a gateway operation whose success payload has type `α`:
either `{success: false, error: msg}` with an HTTP status, or a 200
`{success: true, ...payload}`. -/
inductive RelayResult (α : Type) where
  | err (status : Nat) (msg : String)
  | ok (payload : α)
deriving DecidableEq, Repr

/-- HTTP status of a `RelayResult` (`res.json` without `res.status`
responds 200). -/
def RelayResult.statusOf {α : Type} : RelayResult α → Nat
  | .err s _ => s
  | .ok _ => 200

/-- Success envelope of `POST /api/predict/:classifier`
(`server.js` lines 95–104): exactly the fields the handler re-emits. -/
structure PredictOk where
  classifier : String
  prediction : Int
  probabilities : List (List Rat)
  class_labels : List String
  model : String
  input : PatientRecord
  timestamp : String
deriving DecidableEq, Repr

/-- Post-validation core of `POST /api/predict/:classifier`
(`server.js` lines 72–127): the empty-body check followed by the
upstream POST and the try/catch's outcome mapping. -/
def predictRelay (classifier : String) (model : Option String)
    (inputData : PatientRecord)
    (upstream : UpstreamOutcome UpstreamPrediction) (now : String) :
    RelayResult PredictOk × List UpstreamCall :=
  if inputData.length == 0 then
    (.err 400 "No input data provided", [])
  else
    let call : UpstreamCall :=
      { method := "POST", path := "/predict/" ++ classifier,
        modelQuery := if optStrTruthy model then model else none,
        body := inputData }
    match upstream with
    | .ok d =>
      (.ok { classifier := classifier, prediction := d.prediction,
             probabilities := d.probabilities, class_labels := d.class_labels,
             model := d.model, input := inputData, timestamp := now }, [call])
    | .httpError st e => (.err st (jsOr e "Prediction failed"), [call])
    | .connRefused =>
      (.err 503 "Python service is not running. Please start the Flask server.", [call])
    | .otherFailure => (.err 500 "Internal server error during prediction", [call])

/-- Handler of `POST /api/predict/:classifier` (`server.js` lines 47–129).
Arguments: the `:classifier` path segment, the `model` query parameter
(`none` when absent), the JSON body, the outcome of the upstream call if
one is issued, and the ISO-8601 string `new Date().toISOString()` would
produce.  Returns the response together with the list of upstream calls
issued.  When the classifier names an inherited `Object.prototype`
member, `!AVAILABLE_CLASSIFIERS[classifier]` is false, so the 400 is
skipped: with a truthy model the subsequent
`AVAILABLE_CLASSIFIERS[classifier].includes(model)` call throws a
`TypeError`, which the outer catch (no `response`, no `ECONNREFUSED`)
answers with the generic 500; with no model the handler proceeds to the
upstream call. -/
def predictHandler (classifier : String) (model : Option String)
    (inputData : PatientRecord)
    (upstream : UpstreamOutcome UpstreamPrediction) (now : String) :
    RelayResult PredictOk × List UpstreamCall :=
  match classifierLookup classifier with
  | none =>
    (.err 400 ("Invalid classifier. Must be one of: " ++ joinComma classifierKeys), [])
  | some (.arr models) =>
    if optStrTruthy model && !(models.contains (model.getD "")) then
      (.err 400 ("Invalid model type. Must be one of: " ++ joinComma models), [])
    else
      predictRelay classifier model inputData upstream now
  | some .protoFn =>
    if optStrTruthy model then
      (.err 500 "Internal server error during prediction", [])
    else
      predictRelay classifier model inputData upstream now

/-- Success envelope of `POST /api/predict-all` (`server.js`
lines 157–162); the shape of the upstream `predictions` blob is opaque
to the gateway, hence the type parameter. -/
structure BatchOk (π : Type) where
  predictions : π
  input : PatientRecord
  timestamp : String
deriving DecidableEq, Repr

/-- Handler of `POST /api/predict-all` (`server.js` lines 132–186). -/
def predictAllHandler {π : Type} (inputData : PatientRecord)
    (upstream : UpstreamOutcome π) (now : String) :
    RelayResult (BatchOk π) × List UpstreamCall :=
  if inputData.length == 0 then
    (.err 400 "No input data provided", [])
  else
    let call : UpstreamCall :=
      { method := "POST", path := "/predict-all", modelQuery := none,
        body := inputData }
    match upstream with
    | .ok d =>
      (.ok { predictions := d, input := inputData, timestamp := now }, [call])
    | .httpError st e => (.err st (jsOr e "Batch prediction failed"), [call])
    | .connRefused =>
      (.err 503 "Python service is not running. Please start the Flask server.", [call])
    | .otherFailure => (.err 500 "Internal server error during batch prediction", [call])

/-- Success envelope of `POST /api/compare-models/:classifier`
(`server.js` lines 217–223); the upstream `models` blob is opaque. -/
structure CompareOk (μ : Type) where
  classifier : String
  models : μ
  input : PatientRecord
  timestamp : String
deriving DecidableEq, Repr

/-- Handler of `POST /api/compare-models/:classifier` (`server.js`
lines 189–240).  Note: its `catch` block (lines 225–239) only tests
`error.response` and then falls through to a generic 500 — it has no
`ECONNREFUSED` branch, so a refused connection is answered with 500. -/
def compareModelsHandler {μ : Type} (classifier : String)
    (inputData : PatientRecord) (upstream : UpstreamOutcome μ)
    (now : String) : RelayResult (CompareOk μ) × List UpstreamCall :=
  match classifierLookup classifier with
  | none =>
    (.err 400 ("Invalid classifier. Must be one of: " ++ joinComma classifierKeys), [])
  | some _ =>
    if inputData.length == 0 then
      (.err 400 "No input data provided", [])
    else
      let call : UpstreamCall :=
        { method := "POST", path := "/compare-models/" ++ classifier,
          modelQuery := none, body := inputData }
      match upstream with
      | .ok d =>
        (.ok { classifier := classifier, models := d, input := inputData,
               timestamp := now }, [call])
      | .httpError st e => (.err st (jsOr e "Model comparison failed"), [call])
      | .connRefused =>
        (.err 500 "Internal server error during model comparison", [call])
      | .otherFailure =>
        (.err 500 "Internal server error during model comparison", [call])

/-- Handler of `GET /api/model-info/:classifier` (`server.js`
lines 243–274).  On success it spreads `response.data` (opaque type `δ`)
into the envelope; its `catch` (lines 267–273) answers every failure with
the same generic 500. -/
def modelInfoHandler {δ : Type} (classifier : String)
    (model : Option String) (upstream : UpstreamOutcome δ) :
    RelayResult δ × List UpstreamCall :=
  match classifierLookup classifier with
  | none =>
    (.err 400 ("Invalid classifier. Must be one of: " ++ joinComma classifierKeys), [])
  | some _ =>
    let call : UpstreamCall :=
      { method := "GET", path := "/model-info/" ++ classifier,
        modelQuery := if optStrTruthy model then model else none, body := [] }
    match upstream with
    | .ok d => (.ok d, [call])
    | .httpError _ _ => (.err 500 "Failed to retrieve model information", [call])
    | .connRefused => (.err 500 "Failed to retrieve model information", [call])
    | .otherFailure => (.err 500 "Failed to retrieve model information", [call])

/-! ### Frontend: `src/Frontend/src/Pages/Prediction.jsx` -/

/-- A JavaScript number as produced by `parseFloat`: a finite value
(kept as an exact, unreduced decimal fraction `num / den` with `den` a
power of ten) or a signed infinity.  `NaN` is represented by
`Option.none` at the call site. -/
inductive JSNum where
  | fin (num : Int) (den : Nat)
  | inf (neg : Bool)
deriving DecidableEq, Repr

/-- Longest prefix of decimal digits, with the rest. -/
def spanDigits (cs : List Char) : List Char × List Char :=
  cs.span (fun c => c.isDigit)

/-- Natural number denoted by a list of decimal digits. -/
def digitsToNat (ds : List Char) : Nat :=
  ds.foldl (fun acc c => 10 * acc + (c.toNat - '0'.toNat)) 0

/-- Signed decimal-digit run at the head of the input, 0 when no digit
follows (an incomplete exponent part contributes nothing). -/
def parseSignedDigits (cs : List Char) : Int :=
  match cs with
  | '+' :: rest =>
    if (spanDigits rest).1.isEmpty then 0 else (digitsToNat (spanDigits rest).1 : Int)
  | '-' :: rest =>
    if (spanDigits rest).1.isEmpty then 0 else -(digitsToNat (spanDigits rest).1 : Int)
  | _ =>
    if (spanDigits cs).1.isEmpty then 0 else (digitsToNat (spanDigits cs).1 : Int)

/-- Exponent part (`e`/`E`, optional sign, digits) at the head of the
input; 0 when absent or incomplete. -/
def parseExponent (cs : List Char) : Int :=
  match cs with
  | 'e' :: rest => parseSignedDigits rest
  | 'E' :: rest => parseSignedDigits rest
  | _ => 0

/-- Embedding of JavaScript `parseFloat`: skip leading whitespace, read
an optional sign, then the longest `Infinity`-or-decimal-literal prefix;
`none` (i.e. `NaN`) when no numeric prefix exists. -/
def jsParseFloat (s : String) : Option JSNum :=
  let cs := s.data.dropWhile Char.isWhitespace
  let neg : Bool :=
    match cs with
    | '-' :: _ => true
    | _ => false
  let cs1 : List Char :=
    match cs with
    | '-' :: rest => rest
    | '+' :: rest => rest
    | _ => cs
  match cs1 with
  | 'I' :: 'n' :: 'f' :: 'i' :: 'n' :: 'i' :: 't' :: 'y' :: _ => some (.inf neg)
  | _ =>
    let (intDs, cs2) := spanDigits cs1
    let (fracDs, cs3) :=
      match cs2 with
      | '.' :: rest => spanDigits rest
      | _ => ([], cs2)
    if intDs.isEmpty && fracDs.isEmpty then none
    else
      let e : Int := parseExponent cs3 - (fracDs.length : Int)
      let m : Nat := digitsToNat (intDs ++ fracDs)
      let num : Nat := if 0 ≤ e then m * 10 ^ e.toNat else m
      let den : Nat := if 0 ≤ e then 1 else 10 ^ (-e).toNat
      some (.fin (if neg then -(num : Int) else (num : Int)) den)

/-- The `CLASSIFIERS` constant of `Prediction.jsx` (lines 4–8): key to
display label. -/
def CLASSIFIERS : List (String × String) :=
  [("BP_Class", "Blood Pressure"),
   ("Diabetes_Class", "Diabetes"),
   ("Dyslipidemia_Class", "Dyslipidemia (Cholesterol)")]

/-- The `MODEL_TYPES` constant of `Prediction.jsx` (line 10). -/
def MODEL_TYPES : List String :=
  ["GradientBoosting", "LogisticRegression", "RandomForest"]

/-- Labels of `FIELD_CONFIG` in `Prediction.jsx` (lines 16–75), keyed by
field name (only the labels are relevant to the handlers). -/
def FIELD_CONFIG : List (String × String) :=
  [("age", "Age"), ("sex", "Sex"), ("weight", "Weight (kg)"),
   ("height", "Height (cm)"), ("BMI", "BMI"), ("smoking", "Smoking Status"),
   ("alcohol_consumption", "Alcohol Consumption"),
   ("physical_activity", "Physical Activity Level"),
   ("family_history", "Family History"),
   ("cholesterol_medication", "Cholesterol Medication")]

/-- `FIELD_CONFIG[key]?.label || key`. -/
def fieldLabel (k : String) : String :=
  jsOr ((FIELD_CONFIG.find? (fun p => p.1 == k)).map Prod.snd) k

/-- The ten field names of the form state, in declaration order
(`Prediction.jsx` lines 78–89). -/
def inputFieldNames : List String :=
  ["age", "sex", "weight", "height", "BMI", "smoking",
   "alcohol_consumption", "physical_activity", "family_history",
   "cholesterol_medication"]

/-- `validateInputs` (`Prediction.jsx` lines 104–112): `some message`
when some field is the empty string (the message lists the labels of all
empty fields), `none` when every field is filled. -/
def validateInputs (inputs : List (String × String)) : Option String :=
  let emptyFields := inputs.filter (fun p => p.2 == "")
  if emptyFields.length > 0 then
    some ("Please fill in all fields: " ++
      joinComma (emptyFields.map (fun p => fieldLabel p.1)))
  else
    none

/-- `prepareInputData` (`Prediction.jsx` lines 115–125): convert every
field with `parseFloat`, throwing (here: `Except.error`) at the first
field whose value is `NaN`, with a message naming that field. -/
def prepareInputData : List (String × String) → Except String (List (String × JSNum))
  | [] => .ok []
  | (k, v) :: rest =>
    match jsParseFloat v with
    | none => .error ("Invalid numeric value for " ++ fieldLabel k ++ ": " ++ v)
    | some n =>
      match prepareInputData rest with
      | .error e => .error e
      | .ok tail => .ok ((k, n) :: tail)

/-- What one gateway `fetch` yields to the client after
`await response.json()`: the `response.ok` flag and the envelope fields
the client reads. -/
structure ClientResponse where
  ok : Bool
  success : Bool
  error : Option String
  prediction : Int
  probabilities : List (List Rat)
  class_labels : List String
deriving DecidableEq, Repr

/-- Outcome of one client-side `fetch`: a parsed response, or a thrown
error (network failure / JSON parse failure) with its message. -/
inductive PairResult where
  | resp (r : ClientResponse)
  | thrown (msg : String)
deriving DecidableEq, Repr

/-- Entry stored in `allPredictions[classifierKey][model]` for one pair
(`Prediction.jsx` lines 193–208): a prediction result or an error
description. -/
inductive ModelEntry where
  | result (prediction : Int) (probabilities : List (List Rat))
      (class_labels : List String)
  | failure (error : String)
deriving DecidableEq, Repr

/-- Whether an aggregate entry is an error entry. -/
def ModelEntry.isError : ModelEntry → Bool
  | .failure _ => true
  | .result _ _ _ => false

/-- The `AggregateResult`: classifier key to model name to entry, in
loop order. -/
abbrev Aggregate := List (String × List (String × ModelEntry))

/-- Body of the inner loop of `handlePredictAll` for one
(classifier, model) pair, given the outcome `net c m` of its `fetch`:
success responses are stored as results, everything else as an error
entry for that pair alone. -/
def predictPair (net : String → String → PairResult) (c m : String) : ModelEntry :=
  match net c m with
  | .thrown msg => .failure msg
  | .resp r =>
    if r.ok && r.success then .result r.prediction r.probabilities r.class_labels
    else .failure (jsOr r.error "Prediction failed")

/-- The aggregate built by the nested loops of `handlePredictAll`
(`Prediction.jsx` lines 175–210): outer over `Object.keys(CLASSIFIERS)`,
inner over `MODEL_TYPES`. -/
def buildAgg (net : String → String → PairResult) : Aggregate :=
  (CLASSIFIERS.map Prod.fst).map
    (fun c => (c, MODEL_TYPES.map (fun m => (m, predictPair net c m))))

/-- Flat view of an aggregate: one entry per (classifier, model) key. -/
def aggEntries (agg : Aggregate) : List ((String × String) × ModelEntry) :=
  agg.flatMap (fun p => p.2.map (fun q => ((p.1, q.1), q.2)))

/-- Value held by the `prediction` React state: the raw gateway envelope
in single mode, or the complete-analysis object
`{success: true, predictions, input}` in all mode. -/
inductive PredState where
  | single (data : ClientResponse)
  | aggregate (predictions : Aggregate) (input : List (String × JSNum))
deriving DecidableEq, Repr

/-- Observable actions of the two submit handlers, in program order:
state updates (`setLoading`, `setError`, `setPrediction`) and outgoing
`fetch` calls. -/
inductive UIEvent where
  | setLoading (b : Bool)
  | setError (e : Option String)
  | setPrediction (p : Option PredState)
  | fetchCall (classifier : String) (model : String) (body : List (String × JSNum))
deriving DecidableEq, Repr

/-- The `fetch` calls issued by the complete-analysis loops, in order. -/
def fetchEvents (num : List (String × JSNum)) : List UIEvent :=
  (CLASSIFIERS.map Prod.fst).flatMap
    (fun c => MODEL_TYPES.map (fun m => .fetchCall c m num))

/-- Event trace of `handlePredictAll` (`Prediction.jsx` lines 163–224),
parameterised by the form state and by the per-pair fetch outcomes. -/
def handlePredictAll (inputs : List (String × String))
    (net : String → String → PairResult) : List UIEvent :=
  match validateInputs inputs with
  | some msg => [.setError (some msg)]
  | none =>
    [.setLoading true, .setError none, .setPrediction none] ++
    (match prepareInputData inputs with
     | .error msg => [.setError (some msg)]
     | .ok num =>
       fetchEvents num ++
       [.setPrediction (some (.aggregate (buildAgg net) num))]) ++
    [.setLoading false]

/-- Event trace of `handleSinglePredict` (`Prediction.jsx`
lines 127–161), parameterised by the form state, the selected classifier
and model, and the outcome of the one fetch. -/
def handleSinglePredict (inputs : List (String × String))
    (classifier modelType : String) (net : PairResult) : List UIEvent :=
  match validateInputs inputs with
  | some msg => [.setError (some msg)]
  | none =>
    [.setLoading true, .setError none, .setPrediction none] ++
    (match prepareInputData inputs with
     | .error msg => [.setError (some msg)]
     | .ok num =>
       [.fetchCall classifier modelType num] ++
       (match net with
        | .thrown msg => [.setError (some msg)]
        | .resp r =>
          if !r.ok then [.setError (some (jsOr r.error "Prediction failed"))]
          else [.setPrediction (some (.single r))])) ++
    [.setLoading false]

/-! ### Helper lemmas -/

/-- Every member of a list of strings occurs verbatim inside its
comma-separated join. -/
theorem joinComma_mem {x : String} {l : List String} (h : x ∈ l) :
    ∃ pre post, (joinComma l).data = pre ++ x.data ++ post := by
  induction l with
  | nil => cases h
  | cons a t ih =>
    cases t with
    | nil =>
      rcases List.mem_singleton.mp h with rfl
      exact ⟨[], [], by simp [joinComma]⟩
    | cons b t' =>
      rcases List.mem_cons.mp h with rfl | hmem
      · exact ⟨[], (", " ++ joinComma (b :: t')).data, by
          simp [joinComma, String.data_append]⟩
      · obtain ⟨pre, post, hp⟩ := ih hmem
        exact ⟨(a ++ ", ").data ++ pre, post, by
          simp [joinComma, String.data_append, hp]⟩

/-- A classifier that is neither a whitelist key nor an inherited
`Object.prototype` member name is looked up as `undefined`. -/
theorem classifierLookup_eq_none {c : String} (h : c ∉ classifierKeys)
    (hp : c ∉ objectProtoKeys) : classifierLookup c = none := by
  rcases hf : AVAILABLE_CLASSIFIERS.find? (fun p => p.1 == c) with _ | p
  · simp [classifierLookup, hf, hp]
  · exfalso
    have hmem := List.mem_of_find?_eq_some hf
    have heq : p.1 = c := by simpa using List.find?_some hf
    exact h (heq ▸ List.mem_map_of_mem Prod.fst hmem)

/-- A nonempty body fails the `Object.keys(inputData).length === 0`
test. -/
theorem length_beq_zero_eq_false {α : Type} {body : List α} (hb : body ≠ []) :
    (body.length == 0) = false := by
  cases body with
  | nil => exact absurd rfl hb
  | cons a t => rfl

/-- Single-predict relay: once the classifier, model and body pass
validation, the handler is the upstream-outcome dispatch of the source's
try/catch. -/
theorem predictHandler_validated (c : String) (models : List String)
    (hc : classifierLookup c = some (.arr models)) (model : Option String)
    (hm : (optStrTruthy model && !(models.contains (model.getD ""))) = false)
    (body : PatientRecord) (hb : body ≠ [])
    (u : UpstreamOutcome UpstreamPrediction) (now : String) :
    predictHandler c model body u now =
      (let call : UpstreamCall :=
        { method := "POST", path := "/predict/" ++ c,
          modelQuery := if optStrTruthy model then model else none,
          body := body }
      match u with
      | .ok d =>
        (.ok { classifier := c, prediction := d.prediction,
               probabilities := d.probabilities, class_labels := d.class_labels,
               model := d.model, input := body, timestamp := now }, [call])
      | .httpError st e => (.err st (jsOr e "Prediction failed"), [call])
      | .connRefused =>
        (.err 503 "Python service is not running. Please start the Flask server.", [call])
      | .otherFailure =>
        (.err 500 "Internal server error during prediction", [call])) := by
  simp only [predictHandler, hc]
  rw [hm]
  simp only [predictRelay]
  rw [length_beq_zero_eq_false hb]
  rfl

/-- Batch relay: a nonempty body reaches the upstream-outcome dispatch. -/
theorem predictAllHandler_validated {π : Type} (body : PatientRecord)
    (hb : body ≠ []) (u : UpstreamOutcome π) (now : String) :
    predictAllHandler body u now =
      (let call : UpstreamCall :=
        { method := "POST", path := "/predict-all", modelQuery := none,
          body := body }
      match u with
      | .ok d => (.ok { predictions := d, input := body, timestamp := now }, [call])
      | .httpError st e => (.err st (jsOr e "Batch prediction failed"), [call])
      | .connRefused =>
        (.err 503 "Python service is not running. Please start the Flask server.", [call])
      | .otherFailure =>
        (.err 500 "Internal server error during batch prediction", [call])) := by
  simp only [predictAllHandler]
  rw [length_beq_zero_eq_false hb]
  rfl

/-- Compare-models relay: once the classifier and body pass validation,
the handler is the upstream-outcome dispatch — whose `catch` has no
connection-refused case. -/
theorem compareModelsHandler_validated {μ : Type} (c : String)
    (models : List String) (hc : classifierLookup c = some (.arr models))
    (body : PatientRecord) (hb : body ≠ []) (u : UpstreamOutcome μ)
    (now : String) :
    compareModelsHandler c body u now =
      (let call : UpstreamCall :=
        { method := "POST", path := "/compare-models/" ++ c,
          modelQuery := none, body := body }
      match u with
      | .ok d =>
        (.ok { classifier := c, models := d, input := body, timestamp := now }, [call])
      | .httpError st e => (.err st (jsOr e "Model comparison failed"), [call])
      | .connRefused =>
        (.err 500 "Internal server error during model comparison", [call])
      | .otherFailure =>
        (.err 500 "Internal server error during model comparison", [call])) := by
  simp only [compareModelsHandler, hc]
  rw [length_beq_zero_eq_false hb]
  rfl

/-! ### Claims about the gateway -/

/-- C4 (counterexample): the classifier "constructor" is not in the
whitelist, yet — because `AVAILABLE_CLASSIFIERS["constructor"]` is the
inherited, truthy `Object.prototype.constructor` — single predict (with
no model), compare-models and model-info all skip the invalid-classifier
400 and issue an upstream call, refuting the claim as universally
stated. -/
theorem claim_C4_counterexample :
    "constructor" ∉ classifierKeys
    ∧ (predictHandler "constructor" none [("age", (45 : Rat))] .connRefused "t").2
        = [{ method := "POST", path := "/predict/" ++ "constructor",
             modelQuery := none, body := [("age", (45 : Rat))] }]
    ∧ (predictHandler "constructor" none [("age", (45 : Rat))] .connRefused "t").1
        ≠ .err 400 ("Invalid classifier. Must be one of: " ++ joinComma classifierKeys)
    ∧ (compareModelsHandler "constructor" [("age", (45 : Rat))]
        (.connRefused : UpstreamOutcome Unit) "t").2 ≠ []
    ∧ (modelInfoHandler "constructor" none (.connRefused : UpstreamOutcome Unit)).2 ≠ [] := by
  refine ⟨by decide, by decide, by decide, by decide, by decide⟩

/-- C4 (amended): for every `ClassifierId` that is neither a whitelist
key nor the name of an inherited `Object.prototype` member, each
operation that takes a classifier (single predict, compare-models,
model-info) answers 400 with a message enumerating the valid classifier
set (each whitelist key occurs verbatim in the message), and issues no
upstream call. -/
theorem claim_C4_amended {μ δ : Type} (c : String) (hc : c ∉ classifierKeys)
    (hp : c ∉ objectProtoKeys)
    (model : Option String) (body : PatientRecord)
    (u₁ : UpstreamOutcome UpstreamPrediction) (u₂ : UpstreamOutcome μ)
    (u₃ : UpstreamOutcome δ) (now : String) :
    predictHandler c model body u₁ now
        = (.err 400 ("Invalid classifier. Must be one of: " ++ joinComma classifierKeys), [])
    ∧ compareModelsHandler c body u₂ now
        = (.err 400 ("Invalid classifier. Must be one of: " ++ joinComma classifierKeys), [])
    ∧ modelInfoHandler c model u₃
        = (.err 400 ("Invalid classifier. Must be one of: " ++ joinComma classifierKeys), [])
    ∧ ∀ k ∈ classifierKeys, ∃ pre post,
        ("Invalid classifier. Must be one of: " ++ joinComma classifierKeys).data
          = pre ++ k.data ++ post := by
  have hn := classifierLookup_eq_none hc hp
  refine ⟨?_, ?_, ?_, ?_⟩
  · simp [predictHandler, hn]
  · simp [compareModelsHandler, hn]
  · simp [modelInfoHandler, hn]
  · intro k hk
    obtain ⟨pre, post, hp⟩ := joinComma_mem hk
    exact ⟨"Invalid classifier. Must be one of: ".data ++ pre, post, by
      simp [String.data_append, hp]⟩

/-- Witness for the amended C4: the invalid classifier `"nope"`, which
is also not an `Object.prototype` member name. -/
theorem claim_C4_amended_witness :
    "nope" ∉ classifierKeys
    ∧ "nope" ∉ objectProtoKeys
    ∧ (predictHandler "nope" none [] .connRefused "t"
        = (.err 400 ("Invalid classifier. Must be one of: " ++ joinComma classifierKeys), [])
      ∧ compareModelsHandler "nope" [] (.connRefused : UpstreamOutcome Unit) "t"
        = (.err 400 ("Invalid classifier. Must be one of: " ++ joinComma classifierKeys), [])
      ∧ modelInfoHandler "nope" none (.connRefused : UpstreamOutcome Unit)
        = (.err 400 ("Invalid classifier. Must be one of: " ++ joinComma classifierKeys), [])
      ∧ ∀ k ∈ classifierKeys, ∃ pre post,
          ("Invalid classifier. Must be one of: " ++ joinComma classifierKeys).data
            = pre ++ k.data ++ post) :=
  ⟨by decide, by decide,
    claim_C4_amended "nope" (by decide) (by decide) none [] .connRefused .connRefused
      .connRefused "t"⟩

/-- C5: when a model is supplied for single prediction and is not in the
whitelist of models for the given classifier, the gateway answers 400
naming the valid model set (each valid model occurs verbatim in the
message) and issues no upstream call. -/
theorem claim_C5 (c : String) (models : List String)
    (hc : classifierLookup c = some (.arr models)) (m : String) (hm : m ≠ "")
    (hnot : m ∉ models) (body : PatientRecord)
    (u : UpstreamOutcome UpstreamPrediction) (now : String) :
    predictHandler c (some m) body u now
        = (.err 400 ("Invalid model type. Must be one of: " ++ joinComma models), [])
    ∧ ∀ k ∈ models, ∃ pre post,
        ("Invalid model type. Must be one of: " ++ joinComma models).data
          = pre ++ k.data ++ post := by
  constructor
  · have h1 : optStrTruthy (some m) = true := by simp [optStrTruthy, strTruthy, hm]
    have h2 : (optStrTruthy (some m) && !(models.contains ((some m).getD ""))) = true := by
      simp [h1, hnot]
    simp only [predictHandler, hc]
    rw [h2]
    rfl
  · intro k hk
    obtain ⟨pre, post, hp⟩ := joinComma_mem hk
    exact ⟨"Invalid model type. Must be one of: ".data ++ pre, post, by
      simp [String.data_append, hp]⟩

/-- Witness for C5: model `"SVM"` is not valid for `"BP_Class"`. -/
theorem claim_C5_witness :
    classifierLookup "BP_Class" = some (.arr ["GradientBoosting", "LogisticRegression", "RandomForest"])
    ∧ "SVM" ≠ ""
    ∧ "SVM" ∉ ["GradientBoosting", "LogisticRegression", "RandomForest"]
    ∧ (predictHandler "BP_Class" (some "SVM") [] .connRefused "t"
        = (.err 400 ("Invalid model type. Must be one of: " ++
            joinComma ["GradientBoosting", "LogisticRegression", "RandomForest"]), [])
      ∧ ∀ k ∈ ["GradientBoosting", "LogisticRegression", "RandomForest"], ∃ pre post,
          ("Invalid model type. Must be one of: " ++
            joinComma ["GradientBoosting", "LogisticRegression", "RandomForest"]).data
            = pre ++ k.data ++ post) :=
  ⟨by decide, by decide, by decide,
    claim_C5 "BP_Class" ["GradientBoosting", "LogisticRegression", "RandomForest"]
      (by decide) "SVM" (by decide) (by decide) [] .connRefused "t"⟩

/-- C6: an empty request body (`\x7b\x7d`) makes single predict,
predict-all and compare-models answer 400 "No input data provided"
without issuing any upstream call (given an otherwise valid request). -/
theorem claim_C6 {π μ : Type} (c : String) (models : List String)
    (hc : classifierLookup c = some (.arr models))
    (u₁ : UpstreamOutcome UpstreamPrediction) (u₂ : UpstreamOutcome π)
    (u₃ : UpstreamOutcome μ) (now : String) :
    predictHandler c none [] u₁ now = (.err 400 "No input data provided", [])
    ∧ predictAllHandler [] u₂ now = (.err 400 "No input data provided", [])
    ∧ compareModelsHandler c [] u₃ now = (.err 400 "No input data provided", []) := by
  refine ⟨?_, ?_, ?_⟩ <;>
    simp [predictHandler, predictRelay, predictAllHandler, compareModelsHandler, hc,
      optStrTruthy]

/-- Witness for C6 at classifier `"BP_Class"`. -/
theorem claim_C6_witness :
    classifierLookup "BP_Class" = some (.arr ["GradientBoosting", "LogisticRegression", "RandomForest"])
    ∧ (predictHandler "BP_Class" none [] .connRefused "t" = (.err 400 "No input data provided", [])
      ∧ predictAllHandler [] (.connRefused : UpstreamOutcome Unit) "t"
          = (.err 400 "No input data provided", [])
      ∧ compareModelsHandler "BP_Class" [] (.connRefused : UpstreamOutcome Unit) "t"
          = (.err 400 "No input data provided", [])) :=
  ⟨by decide, claim_C6 "BP_Class" ["GradientBoosting", "LogisticRegression", "RandomForest"]
    (by decide) .connRefused .connRefused .connRefused "t"⟩

/-- C7: on upstream success of a single prediction, the gateway envelope
is exactly success, the classifier from the request path, the upstream
prediction / probabilities / class labels unchanged, the upstream
resolved model, the original body, and the response timestamp; and
exactly one upstream POST was issued. -/
theorem claim_C7 (c : String) (models : List String)
    (hc : classifierLookup c = some (.arr models)) (model : Option String)
    (hm : (optStrTruthy model && !(models.contains (model.getD ""))) = false)
    (body : PatientRecord) (hb : body ≠ [])
    (d : UpstreamPrediction) (now : String) :
    predictHandler c model body (.ok d) now
      = (.ok { classifier := c, prediction := d.prediction,
               probabilities := d.probabilities, class_labels := d.class_labels,
               model := d.model, input := body, timestamp := now },
         [{ method := "POST", path := "/predict/" ++ c,
            modelQuery := if optStrTruthy model then model else none,
            body := body }]) := by
  rw [predictHandler_validated c models hc model hm body hb (.ok d) now]

/-- Witness for C7: the spec's mocked upstream example for
`POST /predict/BP_Class?model=GradientBoosting`. -/
theorem claim_C7_witness :
    classifierLookup "BP_Class" = some (.arr ["GradientBoosting", "LogisticRegression", "RandomForest"])
    ∧ (optStrTruthy (some "GradientBoosting")
        && !(["GradientBoosting", "LogisticRegression", "RandomForest"].contains
              ((some "GradientBoosting").getD ""))) = false
    ∧ ([("age", (45 : Rat)), ("sex", 1)] : PatientRecord) ≠ []
    ∧ predictHandler "BP_Class" (some "GradientBoosting") [("age", (45 : Rat)), ("sex", 1)]
        (.ok { prediction := 1, probabilities := [[1/5, 4/5]],
               class_labels := ["Negative", "Positive"], model := "GradientBoosting" })
        "2026-01-01T00:00:00.000Z"
      = (.ok { classifier := "BP_Class", prediction := 1, probabilities := [[1/5, 4/5]],
               class_labels := ["Negative", "Positive"], model := "GradientBoosting",
               input := [("age", (45 : Rat)), ("sex", 1)],
               timestamp := "2026-01-01T00:00:00.000Z" },
         [{ method := "POST", path := "/predict/" ++ "BP_Class",
            modelQuery := if optStrTruthy (some "GradientBoosting")
              then some "GradientBoosting" else none,
            body := [("age", (45 : Rat)), ("sex", 1)] }]) :=
  ⟨by decide, by decide, by decide,
    claim_C7 "BP_Class" ["GradientBoosting", "LogisticRegression", "RandomForest"]
      (by decide) (some "GradientBoosting") (by decide)
      [("age", (45 : Rat)), ("sex", 1)] (by decide) _ "2026-01-01T00:00:00.000Z"⟩

/-- C8: a non-2xx upstream response makes each relay operation answer
with the same status code and the upstream error message, or an
operation-specific generic fallback when the upstream body carries no
(nonempty) error field. -/
theorem claim_C8 {π μ : Type} (c : String) (models : List String)
    (hc : classifierLookup c = some (.arr models)) (model : Option String)
    (hm : (optStrTruthy model && !(models.contains (model.getD ""))) = false)
    (body : PatientRecord) (hb : body ≠ [])
    (st : Nat) (msg : String) (hmsg : msg ≠ "") (now : String) :
    (predictHandler c model body (.httpError st (some msg)) now).1 = .err st msg
    ∧ (predictHandler c model body (.httpError st none) now).1 = .err st "Prediction failed"
    ∧ (predictAllHandler body (.httpError st (some msg) : UpstreamOutcome π) now).1 = .err st msg
    ∧ (predictAllHandler body (.httpError st none : UpstreamOutcome π) now).1
        = .err st "Batch prediction failed"
    ∧ (compareModelsHandler c body (.httpError st (some msg) : UpstreamOutcome μ) now).1
        = .err st msg
    ∧ (compareModelsHandler c body (.httpError st none : UpstreamOutcome μ) now).1
        = .err st "Model comparison failed" := by
  refine ⟨?_, ?_, ?_, ?_, ?_, ?_⟩
  · rw [predictHandler_validated c models hc model hm body hb _ now]
    simp [jsOr, strTruthy, hmsg]
  · rw [predictHandler_validated c models hc model hm body hb _ now]
    rfl
  · rw [predictAllHandler_validated body hb _ now]
    simp [jsOr, strTruthy, hmsg]
  · rw [predictAllHandler_validated body hb _ now]
    rfl
  · rw [compareModelsHandler_validated c models hc body hb _ now]
    simp [jsOr, strTruthy, hmsg]
  · rw [compareModelsHandler_validated c models hc body hb _ now]
    rfl

/-- Witness for C8: an upstream 422 carrying the error "bad feature". -/
theorem claim_C8_witness :
    classifierLookup "BP_Class" = some (.arr ["GradientBoosting", "LogisticRegression", "RandomForest"])
    ∧ (optStrTruthy (none : Option String)
        && !(["GradientBoosting", "LogisticRegression", "RandomForest"].contains
              ((none : Option String).getD ""))) = false
    ∧ ([("age", (45 : Rat))] : PatientRecord) ≠ []
    ∧ ("bad feature" : String) ≠ ""
    ∧ ((predictHandler "BP_Class" none [("age", (45 : Rat))]
          (.httpError 422 (some "bad feature")) "t").1 = .err 422 "bad feature"
      ∧ (predictHandler "BP_Class" none [("age", (45 : Rat))]
          (.httpError 422 none) "t").1 = .err 422 "Prediction failed"
      ∧ (predictAllHandler [("age", (45 : Rat))]
          (.httpError 422 (some "bad feature") : UpstreamOutcome Unit) "t").1
            = .err 422 "bad feature"
      ∧ (predictAllHandler [("age", (45 : Rat))]
          (.httpError 422 none : UpstreamOutcome Unit) "t").1
            = .err 422 "Batch prediction failed"
      ∧ (compareModelsHandler "BP_Class" [("age", (45 : Rat))]
          (.httpError 422 (some "bad feature") : UpstreamOutcome Unit) "t").1
            = .err 422 "bad feature"
      ∧ (compareModelsHandler "BP_Class" [("age", (45 : Rat))]
          (.httpError 422 none : UpstreamOutcome Unit) "t").1
            = .err 422 "Model comparison failed") :=
  ⟨by decide, by decide, by decide, by decide,
    claim_C8 "BP_Class" ["GradientBoosting", "LogisticRegression", "RandomForest"]
      (by decide) none (by decide) [("age", (45 : Rat))] (by decide)
      422 "bad feature" (by decide) "t"⟩

/-- C1 (counterexample): for the compare-models relay operation with a
valid request, a connection-refused upstream is answered with the
generic 500, not a 503 — refuting the claim that every relay operation
maps an unreachable upstream to a 503-equivalent. -/
theorem claim_C1_counterexample :
    (compareModelsHandler "BP_Class" [("age", (45 : Rat))]
        (.connRefused : UpstreamOutcome Unit) "2026-01-01T00:00:00.000Z").1
      = .err 500 "Internal server error during model comparison"
    ∧ ((compareModelsHandler "BP_Class" [("age", (45 : Rat))]
        (.connRefused : UpstreamOutcome Unit) "2026-01-01T00:00:00.000Z").1).statusOf
      ≠ 503 := by
  constructor
  · decide
  · decide

/-- C1 (amended): on a connection-refused upstream with an otherwise
valid request, single predict and predict-all answer 503 with the
service-down message, while compare-models (whose catch block has no
`ECONNREFUSED` case) answers the generic 500. -/
theorem claim_C1_amended {π μ : Type} (c : String) (models : List String)
    (hc : classifierLookup c = some (.arr models)) (model : Option String)
    (hm : (optStrTruthy model && !(models.contains (model.getD ""))) = false)
    (body : PatientRecord) (hb : body ≠ []) (now : String) :
    (predictHandler c model body .connRefused now).1
        = .err 503 "Python service is not running. Please start the Flask server."
    ∧ (predictAllHandler body (.connRefused : UpstreamOutcome π) now).1
        = .err 503 "Python service is not running. Please start the Flask server."
    ∧ (compareModelsHandler c body (.connRefused : UpstreamOutcome μ) now).1
        = .err 500 "Internal server error during model comparison" := by
  refine ⟨?_, ?_, ?_⟩
  · rw [predictHandler_validated c models hc model hm body hb _ now]
  · rw [predictAllHandler_validated body hb _ now]
  · rw [compareModelsHandler_validated c models hc body hb _ now]

/-- Witness for the amended C1 at classifier `"BP_Class"`. -/
theorem claim_C1_amended_witness :
    classifierLookup "BP_Class" = some (.arr ["GradientBoosting", "LogisticRegression", "RandomForest"])
    ∧ (optStrTruthy (none : Option String)
        && !(["GradientBoosting", "LogisticRegression", "RandomForest"].contains
              ((none : Option String).getD ""))) = false
    ∧ ([("age", (45 : Rat))] : PatientRecord) ≠ []
    ∧ ((predictHandler "BP_Class" none [("age", (45 : Rat))] .connRefused "t").1
        = .err 503 "Python service is not running. Please start the Flask server."
      ∧ (predictAllHandler [("age", (45 : Rat))] (.connRefused : UpstreamOutcome Unit) "t").1
        = .err 503 "Python service is not running. Please start the Flask server."
      ∧ (compareModelsHandler "BP_Class" [("age", (45 : Rat))]
          (.connRefused : UpstreamOutcome Unit) "t").1
        = .err 500 "Internal server error during model comparison") :=
  ⟨by decide, by decide, by decide,
    claim_C1_amended "BP_Class" ["GradientBoosting", "LogisticRegression", "RandomForest"]
      (by decide) none (by decide) [("age", (45 : Rat))] (by decide) "t"⟩

/-- C10: every failure of the model-info upstream GET — non-2xx response
(any status, any error field), connection refused, or any other
failure — is answered with the same generic 500 "Failed to retrieve
model information"; the upstream status and message never reach the
caller and no 503 mapping exists for this operation. -/
theorem claim_C10 {δ : Type} (c : String) (models : List String)
    (hc : classifierLookup c = some (.arr models)) (model : Option String)
    (st : Nat) (e : Option String) :
    (modelInfoHandler c model (.httpError st e : UpstreamOutcome δ)).1
        = .err 500 "Failed to retrieve model information"
    ∧ (modelInfoHandler c model (.connRefused : UpstreamOutcome δ)).1
        = .err 500 "Failed to retrieve model information"
    ∧ (modelInfoHandler c model (.otherFailure : UpstreamOutcome δ)).1
        = .err 500 "Failed to retrieve model information" := by
  refine ⟨?_, ?_, ?_⟩ <;> simp [modelInfoHandler, hc]

/-- Witness for C10 at classifier `"BP_Class"` with an upstream 404. -/
theorem claim_C10_witness :
    classifierLookup "BP_Class" = some (.arr ["GradientBoosting", "LogisticRegression", "RandomForest"])
    ∧ ((modelInfoHandler "BP_Class" none
          (.httpError 404 (some "not found") : UpstreamOutcome Unit)).1
        = .err 500 "Failed to retrieve model information"
      ∧ (modelInfoHandler "BP_Class" none (.connRefused : UpstreamOutcome Unit)).1
        = .err 500 "Failed to retrieve model information"
      ∧ (modelInfoHandler "BP_Class" none (.otherFailure : UpstreamOutcome Unit)).1
        = .err 500 "Failed to retrieve model information") :=
  ⟨by decide, claim_C10 "BP_Class" ["GradientBoosting", "LogisticRegression", "RandomForest"]
    (by decide) none 404 (some "not found")⟩

/-! ### Claims about the client aggregator -/

/-- Whether a UI event publishes a prediction value (a `setPrediction`
with a non-null argument; clearing the state to null is not a
publication). -/
def isPublish : UIEvent → Bool
  | .setPrediction (some _) => true
  | _ => false

/-- Whether a UI event is an outgoing `fetch` call. -/
def isFetch : UIEvent → Bool
  | .fetchCall _ _ _ => true
  | _ => false

/-- The nine (classifier, model) keys of complete-analysis mode, in loop
order. -/
def allPairs : List (String × String) :=
  (CLASSIFIERS.map Prod.fst).flatMap (fun c => MODEL_TYPES.map (fun m => (c, m)))

/-- Error entries are exactly the `failure` entries. -/
theorem ModelEntry.isError_failure (e : String) :
    (ModelEntry.failure e).isError = true := rfl

/-- Result entries are not error entries. -/
theorem ModelEntry.isError_result (p : Int) (q : List (List Rat)) (r : List String) :
    (ModelEntry.result p q r).isError = false := rfl

/-- A per-pair outcome that is a successful response is stored as a
(non-error) result entry. -/
theorem predictPair_isError_false {net : String → String → PairResult} {c m : String}
    (h : ∃ r, net c m = .resp r ∧ r.ok = true ∧ r.success = true) :
    (predictPair net c m).isError = false := by
  obtain ⟨r, hr, hok, hs⟩ := h
  simp [predictPair, hr, hok, hs, ModelEntry.isError]

/-- C2: in complete-analysis fan-out over the 3 × 3 grid, if exactly one
pair's fetch throws and every other pair succeeds, the aggregate still
has all 9 entries in grid order, the single error entry is keyed to the
failing pair (and stores its thrown message), and the other 8 entries
are successes. -/
theorem claim_C2 (net : String → String → PairResult) (c₀ m₀ msg : String)
    (hc : c₀ ∈ CLASSIFIERS.map Prod.fst) (hm : m₀ ∈ MODEL_TYPES)
    (hfail : net c₀ m₀ = .thrown msg)
    (hrest : ∀ c m, c ∈ CLASSIFIERS.map Prod.fst → m ∈ MODEL_TYPES →
      (c, m) ≠ (c₀, m₀) →
      ∃ r, net c m = .resp r ∧ r.ok = true ∧ r.success = true) :
    (aggEntries (buildAgg net)).length = 9
    ∧ (aggEntries (buildAgg net)).map Prod.fst = allPairs
    ∧ (aggEntries (buildAgg net)).filter (fun p => p.2.isError)
        = [((c₀, m₀), .failure msg)]
    ∧ ((aggEntries (buildAgg net)).filter (fun p => !p.2.isError)).length = 8 := by
  have hfl : predictPair net c₀ m₀ = .failure msg := by simp [predictPair, hfail]
  have hne : ∀ c m, c ∈ CLASSIFIERS.map Prod.fst → m ∈ MODEL_TYPES →
      (c, m) ≠ (c₀, m₀) → (predictPair net c m).isError = false :=
    fun c m hc' hm' hne' => predictPair_isError_false (hrest c m hc' hm' hne')
  simp only [CLASSIFIERS, MODEL_TYPES, List.map, List.mem_cons,
    List.not_mem_nil, or_false] at hc hm
  refine ⟨rfl, rfl, ?_, ?_⟩ <;>
  · rcases hc with rfl | rfl | rfl <;> rcases hm with rfl | rfl | rfl <;>
      simp [aggEntries, buildAgg, CLASSIFIERS, MODEL_TYPES, hfl, hne,
        ModelEntry.isError_failure, ModelEntry.isError_result]

/-- C3: when the form validates and converts, the complete-analysis
trace is exactly: loading on, error cleared, prediction cleared, the
nine fetches, then a single publication of the full aggregate, then
loading off.  The aggregate is published exactly once, only after every
pair's fetch, and it carries an entry for every one of the nine pairs —
no partial aggregate is ever published. -/
theorem claim_C3 (inputs : List (String × String))
    (net : String → String → PairResult) (num : List (String × JSNum))
    (hv : validateInputs inputs = none) (hp : prepareInputData inputs = .ok num) :
    handlePredictAll inputs net
      = [.setLoading true, .setError none, .setPrediction none] ++ fetchEvents num
        ++ [.setPrediction (some (.aggregate (buildAgg net) num)), .setLoading false]
    ∧ (handlePredictAll inputs net).filter isPublish
        = [.setPrediction (some (.aggregate (buildAgg net) num))]
    ∧ (∀ e ∈ fetchEvents num, isFetch e = true)
    ∧ (aggEntries (buildAgg net)).map Prod.fst = allPairs := by
  refine ⟨?_, ?_, ?_, rfl⟩
  · simp [handlePredictAll, hv, hp]
  · simp [handlePredictAll, hv, hp, fetchEvents, CLASSIFIERS, MODEL_TYPES, isPublish]
  · intro e he
    simp only [fetchEvents, List.mem_flatMap, List.mem_map] at he
    obtain ⟨c, -, m, -, rfl⟩ := he
    rfl

/-- Form state in which every field is filled with a numeric string. -/
def sampleInputs : List (String × String) :=
  [("age", "45"), ("sex", "1"), ("weight", "70"), ("height", "170"), ("BMI", "24"),
   ("smoking", "0"), ("alcohol_consumption", "1"), ("physical_activity", "2"),
   ("family_history", "1"), ("cholesterol_medication", "0")]

/-- The numeric record `prepareInputData` produces from `sampleInputs`. -/
def sampleNum : List (String × JSNum) :=
  [("age", .fin 45 1), ("sex", .fin 1 1), ("weight", .fin 70 1), ("height", .fin 170 1),
   ("BMI", .fin 24 1), ("smoking", .fin 0 1), ("alcohol_consumption", .fin 1 1),
   ("physical_activity", .fin 2 1), ("family_history", .fin 1 1),
   ("cholesterol_medication", .fin 0 1)]

/-- A network in which exactly the (Diabetes_Class, RandomForest) fetch
throws and every other pair returns a successful response. -/
def sampleNet : String → String → PairResult :=
  fun c m =>
    if c = "Diabetes_Class" ∧ m = "RandomForest" then .thrown "fetch failed"
    else .resp { ok := true, success := true, error := none, prediction := 0,
                 probabilities := [[1, 0]], class_labels := ["Negative", "Positive"] }

/-- Every pair other than (Diabetes_Class, RandomForest) succeeds under
`sampleNet`. -/
theorem sampleNet_rest : ∀ c m, c ∈ CLASSIFIERS.map Prod.fst → m ∈ MODEL_TYPES →
    (c, m) ≠ ("Diabetes_Class", "RandomForest") →
    ∃ r, sampleNet c m = .resp r ∧ r.ok = true ∧ r.success = true := by
  intro c m _ _ hne
  have hcond : ¬(c = "Diabetes_Class" ∧ m = "RandomForest") := by
    rintro ⟨rfl, rfl⟩
    exact hne rfl
  exact ⟨{ ok := true, success := true, error := none, prediction := 0,
           probabilities := [[1, 0]], class_labels := ["Negative", "Positive"] },
         by simp [sampleNet, hcond], rfl, rfl⟩

/-- Witness for C2: under `sampleNet`, the aggregate has 9 entries with
exactly the (Diabetes_Class, RandomForest) entry in error. -/
theorem claim_C2_witness :
    "Diabetes_Class" ∈ CLASSIFIERS.map Prod.fst
    ∧ "RandomForest" ∈ MODEL_TYPES
    ∧ sampleNet "Diabetes_Class" "RandomForest" = .thrown "fetch failed"
    ∧ ((aggEntries (buildAgg sampleNet)).length = 9
      ∧ (aggEntries (buildAgg sampleNet)).map Prod.fst = allPairs
      ∧ (aggEntries (buildAgg sampleNet)).filter (fun p => p.2.isError)
          = [(("Diabetes_Class", "RandomForest"), .failure "fetch failed")]
      ∧ ((aggEntries (buildAgg sampleNet)).filter (fun p => !p.2.isError)).length = 8) :=
  ⟨by decide, by decide, by rfl,
    claim_C2 sampleNet "Diabetes_Class" "RandomForest" "fetch failed"
      (by decide) (by decide) (by rfl) sampleNet_rest⟩

/-- Witness for C3 on `sampleInputs` with a network that always throws. -/
theorem claim_C3_witness :
    validateInputs sampleInputs = none
    ∧ prepareInputData sampleInputs = .ok sampleNum
    ∧ (handlePredictAll sampleInputs (fun _ _ => .thrown "down")
        = [.setLoading true, .setError none, .setPrediction none]
          ++ fetchEvents sampleNum
          ++ [.setPrediction (some (.aggregate (buildAgg (fun _ _ => .thrown "down"))
                sampleNum)), .setLoading false]
      ∧ (handlePredictAll sampleInputs (fun _ _ => .thrown "down")).filter isPublish
        = [.setPrediction (some (.aggregate (buildAgg (fun _ _ => .thrown "down"))
            sampleNum))]
      ∧ (∀ e ∈ fetchEvents sampleNum, isFetch e = true)
      ∧ (aggEntries (buildAgg (fun _ _ => .thrown "down"))).map Prod.fst = allPairs) :=
  ⟨by rfl, by rfl,
    claim_C3 sampleInputs (fun _ _ => .thrown "down") sampleNum (by rfl) (by rfl)⟩

/-! ### Claim about client-side input validation -/

/-- A form state that passes `validateInputs` has no empty field. -/
theorem validateInputs_none_forall {inputs : List (String × String)}
    (h : validateInputs inputs = none) : ∀ p ∈ inputs, p.2 ≠ "" := by
  intro p hp hpe
  have hmem : p ∈ inputs.filter (fun q => q.2 == "") :=
    List.mem_filter.mpr ⟨hp, by simp [hpe]⟩
  have hpos : (inputs.filter (fun q => q.2 == "")).length > 0 :=
    List.length_pos.mpr (List.ne_nil_of_mem hmem)
  unfold validateInputs at h
  rw [if_pos hpos] at h
  cases h

/-- A form state with no empty field passes `validateInputs`. -/
theorem validateInputs_none_of_forall {inputs : List (String × String)}
    (h : ∀ p ∈ inputs, p.2 ≠ "") : validateInputs inputs = none := by
  have hf : inputs.filter (fun q => q.2 == "") = [] := by
    rw [List.filter_eq_nil_iff]
    intro p hp
    simp [h p hp]
  simp [validateInputs, hf]

/-- A form state with an empty field fails `validateInputs` with a
message in which that field's label occurs verbatim. -/
theorem validateInputs_some_of_empty {inputs : List (String × String)} {k : String}
    (h : (k, "") ∈ inputs) :
    validateInputs inputs
      = some ("Please fill in all fields: " ++
          joinComma ((inputs.filter (fun q => q.2 == "")).map (fun p => fieldLabel p.1)))
    ∧ ∃ pre post,
        ("Please fill in all fields: " ++
          joinComma ((inputs.filter (fun q => q.2 == "")).map (fun p => fieldLabel p.1))).data
        = pre ++ (fieldLabel k).data ++ post := by
  have hmemf : (k, "") ∈ inputs.filter (fun q => q.2 == "") :=
    List.mem_filter.mpr ⟨h, by simp⟩
  constructor
  · have hpos : 0 < (inputs.filter (fun q => q.2 == "")).length :=
      List.length_pos.mpr (List.ne_nil_of_mem hmemf)
    unfold validateInputs
    rw [if_pos hpos]
  · have hlab : fieldLabel k
        ∈ (inputs.filter (fun q => q.2 == "")).map (fun p => fieldLabel p.1) :=
      List.mem_map_of_mem (fun p => fieldLabel p.1) hmemf
    obtain ⟨pre, post, hp⟩ := joinComma_mem hlab
    exact ⟨"Please fill in all fields: ".data ++ pre, post, by
      simp [String.data_append, hp]⟩

/-- A form state that converts successfully has no `NaN` field. -/
theorem prepareInputData_ok_forall {inputs : List (String × String)}
    {num : List (String × JSNum)} (h : prepareInputData inputs = .ok num) :
    ∀ p ∈ inputs, jsParseFloat p.2 ≠ none := by
  induction inputs generalizing num with
  | nil =>
    intro p hp
    cases hp
  | cons a t ih =>
    obtain ⟨k, v⟩ := a
    intro p hp
    rcases hj : jsParseFloat v with _ | n
    · rw [prepareInputData, hj] at h
      cases h
    · rw [prepareInputData, hj] at h
      rcases ht : prepareInputData t with e | tail
      · rw [ht] at h
        cases h
      · rcases List.mem_cons.mp hp with rfl | hmem
        · simp [hj]
        · exact ih ht p hmem

/-- Conversion throws at the first field whose value parses to `NaN`,
with the source's message for that field. -/
theorem prepareInputData_error_of_find {inputs : List (String × String)} {k v : String}
    (h : inputs.find? (fun p => (jsParseFloat p.2).isNone) = some (k, v)) :
    prepareInputData inputs
      = .error ("Invalid numeric value for " ++ fieldLabel k ++ ": " ++ v) := by
  induction inputs with
  | nil => cases h
  | cons a t ih =>
    obtain ⟨k', v'⟩ := a
    rcases hj : jsParseFloat v' with _ | n
    · rw [List.find?_cons_of_pos _ (by simp [hj])] at h
      injection h with h'
      rw [Prod.mk.injEq] at h'
      obtain ⟨rfl, rfl⟩ := h'
      rw [prepareInputData, hj]
    · rw [List.find?_cons_of_neg _ (by simp [hj])] at h
      rw [prepareInputData, hj, ih h]

/-- C9: client-side validation precedes dispatch.  (a) If either submit
handler issues any fetch, every field of the form is nonempty and
parses to a number.  (b) If some field is empty, both handlers abort
with no fetch and report the validation message, in which the offending
field's label occurs verbatim.  (c) If no field is empty but some field
parses to `NaN`, both handlers abort with no fetch and report the
conversion message naming the first such field. -/
theorem claim_C9 (inputs : List (String × String)) (classifier modelType : String)
    (net1 : PairResult) (net : String → String → PairResult) :
    ((handleSinglePredict inputs classifier modelType net1).any isFetch = true →
      ∀ p ∈ inputs, p.2 ≠ "" ∧ jsParseFloat p.2 ≠ none)
    ∧ ((handlePredictAll inputs net).any isFetch = true →
      ∀ p ∈ inputs, p.2 ≠ "" ∧ jsParseFloat p.2 ≠ none)
    ∧ (∀ k, (k, "") ∈ inputs →
      (handleSinglePredict inputs classifier modelType net1).any isFetch = false
      ∧ (handlePredictAll inputs net).any isFetch = false
      ∧ ∃ msg, validateInputs inputs = some msg
          ∧ UIEvent.setError (some msg) ∈ handleSinglePredict inputs classifier modelType net1
          ∧ UIEvent.setError (some msg) ∈ handlePredictAll inputs net
          ∧ ∃ pre post, msg.data = pre ++ (fieldLabel k).data ++ post)
    ∧ (∀ k v, (∀ p ∈ inputs, p.2 ≠ "") →
      inputs.find? (fun p => (jsParseFloat p.2).isNone) = some (k, v) →
      (handleSinglePredict inputs classifier modelType net1).any isFetch = false
      ∧ (handlePredictAll inputs net).any isFetch = false
      ∧ UIEvent.setError (some ("Invalid numeric value for " ++ fieldLabel k ++ ": " ++ v))
          ∈ handleSinglePredict inputs classifier modelType net1
      ∧ UIEvent.setError (some ("Invalid numeric value for " ++ fieldLabel k ++ ": " ++ v))
          ∈ handlePredictAll inputs net
      ∧ ∃ pre post, ("Invalid numeric value for " ++ fieldLabel k ++ ": " ++ v).data
          = pre ++ (fieldLabel k).data ++ post) := by
  refine ⟨?_, ?_, ?_, ?_⟩
  · intro hfetch p hp
    rcases hv : validateInputs inputs with _ | msg
    · rcases hq : prepareInputData inputs with msg | num
      · simp only [handleSinglePredict, hv, hq] at hfetch
        simp [isFetch] at hfetch
      · exact ⟨validateInputs_none_forall hv p hp, prepareInputData_ok_forall hq p hp⟩
    · simp only [handleSinglePredict, hv] at hfetch
      simp [isFetch] at hfetch
  · intro hfetch p hp
    rcases hv : validateInputs inputs with _ | msg
    · rcases hq : prepareInputData inputs with msg | num
      · simp only [handlePredictAll, hv, hq] at hfetch
        simp [isFetch] at hfetch
      · exact ⟨validateInputs_none_forall hv p hp, prepareInputData_ok_forall hq p hp⟩
    · simp only [handlePredictAll, hv] at hfetch
      simp [isFetch] at hfetch
  · intro k hk
    obtain ⟨hv, hinfix⟩ := validateInputs_some_of_empty hk
    refine ⟨?_, ?_, ⟨_, hv, ?_, ?_, hinfix⟩⟩
    · simp only [handleSinglePredict, hv]
      simp [isFetch]
    · simp only [handlePredictAll, hv]
      simp [isFetch]
    · simp only [handleSinglePredict, hv]
      simp
    · simp only [handlePredictAll, hv]
      simp
  · intro k v hall hfind
    have hv : validateInputs inputs = none := validateInputs_none_of_forall hall
    have hq := prepareInputData_error_of_find hfind
    refine ⟨?_, ?_, ?_, ?_, ?_⟩
    · simp only [handleSinglePredict, hv, hq]
      simp [isFetch]
    · simp only [handlePredictAll, hv, hq]
      simp [isFetch]
    · simp only [handleSinglePredict, hv, hq]
      simp
    · simp only [handlePredictAll, hv, hq]
      simp
    · exact ⟨"Invalid numeric value for ".data, (": " ++ v).data, by
        simp [String.data_append]⟩

/-- Form state in which the sex field was left empty. -/
def emptySexInputs : List (String × String) :=
  [("age", "45"), ("sex", ""), ("weight", "70"), ("height", "170"), ("BMI", "24"),
   ("smoking", "0"), ("alcohol_consumption", "1"), ("physical_activity", "2"),
   ("family_history", "1"), ("cholesterol_medication", "0")]

/-- Witness for C9: with the sex field empty, both handlers issue no
fetch and report a message naming the Sex field. -/
theorem claim_C9_witness :
    ("sex", "") ∈ emptySexInputs
    ∧ ((handleSinglePredict emptySexInputs "BP_Class" "GradientBoosting"
          (.thrown "down")).any isFetch = false
      ∧ (handlePredictAll emptySexInputs (fun _ _ => .thrown "down")).any isFetch = false
      ∧ ∃ msg, validateInputs emptySexInputs = some msg
          ∧ UIEvent.setError (some msg)
              ∈ handleSinglePredict emptySexInputs "BP_Class" "GradientBoosting" (.thrown "down")
          ∧ UIEvent.setError (some msg)
              ∈ handlePredictAll emptySexInputs (fun _ _ => .thrown "down")
          ∧ ∃ pre post, msg.data = pre ++ (fieldLabel "sex").data ++ post) :=
  ⟨by decide,
    (claim_C9 emptySexInputs "BP_Class" "GradientBoosting" (.thrown "down")
      (fun _ _ => .thrown "down")).2.2.1 "sex" (by decide)⟩

end HealthGateway

/-! ### Concrete evaluation checks of the embedding -/

namespace HealthGateway

example : jsParseFloat "45" = some (.fin 45 1) := by decide
example : jsParseFloat "  -3.5e2" = some (.fin (-350) 1) := by decide
example : jsParseFloat "1." = some (.fin 1 1) := by decide
example : jsParseFloat ".5" = some (.fin 5 10) := by decide
example : jsParseFloat "1e+" = some (.fin 1 1) := by decide
example : jsParseFloat "" = none := by decide
example : jsParseFloat "abc" = none := by decide
example : jsParseFloat "." = none := by decide
example : jsParseFloat "Infinity" = some (.inf false) := by decide
example : jsParseFloat "-Infinity9" = some (.inf true) := by decide
example : jsParseFloat "12abc" = some (.fin 12 1) := by decide
example : jsParseFloat "0x10" = some (.fin 0 1) := by decide
example : jsParseFloat "2e-2" = some (.fin 2 100) := by decide

example : classifierLookup "BP_Class"
    = some (.arr ["GradientBoosting", "LogisticRegression", "RandomForest"]) := by decide
example : classifierLookup "nope" = none := by decide
example : classifierLookup "toString" = some .protoFn := by decide
example : classifierLookup "constructor" = some .protoFn := by decide
example : classifierLookup "__proto__" = some .protoFn := by decide
example : predictHandler "constructor" (some "GradientBoosting") [("age", (45 : Rat))]
    .connRefused "t" = (.err 500 "Internal server error during prediction", []) := by decide

example : validateInputs [("age", ""), ("sex", "1")]
    = some "Please fill in all fields: Age" := by decide
example : prepareInputData [("age", "45"), ("sex", "1")]
    = .ok [("age", .fin 45 1), ("sex", .fin 1 1)] := by rfl
example : prepareInputData [("age", "45"), ("sex", "x")]
    = .error "Invalid numeric value for Sex: x" := by rfl

end HealthGateway
